import Mathlib

/-!
A shallow embedding of the generational-box arena of
packages/generational-box/src (the slot type MemoryLocation, the handle
type GenerationalBox, the UnsyncStorage backend, the borrow tracker and
the guard-release behaviour), translated from the Rust source.

Modelling conventions:
* a diagnostic call site (std::panic::Location) is a natural number; two
  locations are pointer-equal in the source iff the numbers are equal;
* the type-erased cell contents (Box<dyn Any>) is a TypeId tag together
  with a numeric payload; downcast succeeds iff the tags agree;
* the u32 generation counter (AtomicU32, bumped with a wrapping
  fetch_add) is a Nat kept below 2 ^ 32, bumped modulo 2 ^ 32;
* a Rust panic is the value none of an Option-typed result;
* the RefCell borrow flag of the value cell is modelled explicitly; it
  is distinct from the diagnostic marker lists in
  MemoryLocationBorrowInfo, exactly as in the source.
-/

namespace GenBox

/-- A diagnostic call site (a &'static std::panic::Location). -/
abbrev Location := Nat

/-- The modulus of the u32 generation counter: AtomicU32::fetch_add wraps. -/
def genMod : Nat := 2 ^ 32

/-- A type-erased boxed value (Box<dyn Any>): a TypeId tag plus a payload. -/
structure BoxedAny where
  ty : Nat
  val : Nat
deriving DecidableEq, Repr

/-- The borrow state of the value cell (the RefCell of UnsyncStorage):
idle, shared-borrowed by n guards (n is at least 1 in reachable states),
or exclusively borrowed. -/
inductive BorrowFlag where
  | idle
  | reading (n : Nat)
  | writing
deriving DecidableEq, Repr

/-- One more outstanding shared borrow of the cell. -/
def incReaders : BorrowFlag → BorrowFlag
  | .idle => .reading 1
  | .reading n => .reading (n + 1)
  | .writing => .writing

/-- One shared borrow of the cell released. -/
def decReaders : BorrowFlag → BorrowFlag
  | .reading n => if n ≤ 1 then .idle else .reading (n - 1)
  | f => f

/-- mem_location.rs: the diagnostic borrow metadata of a slot — the list
of read markers and the optional write marker. -/
structure MemoryLocationBorrowInfo where
  borrowed_at : List Location
  borrowed_mut_at : Option Location
deriving DecidableEq, Repr

/-- storage.rs: a slot — the type-erased value cell (with its RefCell
borrow flag), the u32 generation counter and the borrow metadata. -/
structure MemoryLocation where
  data : Option BoxedAny
  flag : BorrowFlag
  generation : Nat
  borrow : MemoryLocationBorrowInfo
deriving DecidableEq, Repr

/-- gen_box.rs: a handle — the index of the slot it points at (a stable
address), the generation snapshot, the creation site and the PhantomData
type tag. -/
structure GenerationalBox where
  slot : Nat
  generation : Nat
  created_at : Location
  ty : Nat
deriving DecidableEq, Repr

/-- error.rs: errors of try_read. -/
inductive BorrowError where
  | Dropped (created_at : Location)
  | AlreadyBorrowedMut (borrowed_mut_at : Location)
deriving DecidableEq, Repr

/-- error.rs: errors of try_write. -/
inductive BorrowMutError where
  | Dropped (created_at : Location)
  | AlreadyBorrowed (borrowed_at : List Location)
  | AlreadyBorrowedMut (borrowed_mut_at : Location)
deriving DecidableEq, Repr

/-- references.rs: a read guard. Its value field is what the guard
dereferences to; borrowed_at is the marker recorded when it was taken. -/
structure GenerationalRef where
  value : Nat
  borrowed_at : Location
deriving DecidableEq, Repr

/-- references.rs: a write guard (its borrow info is per-slot state in
this embedding, so only the dereferenced value is carried). -/
structure GenerationalRefMut where
  value : Nat
deriving DecidableEq, Repr

instance {ε α : Type} [DecidableEq ε] [DecidableEq α] : DecidableEq (Except ε α) :=
  fun a b =>
    match a, b with
    | .error x, .error y =>
      if h : x = y then .isTrue (by rw [h]) else .isFalse (by intro hc; cases hc; exact h rfl)
    | .error _, .ok _ => .isFalse (by intro hc; cases hc)
    | .ok _, .error _ => .isFalse (by intro hc; cases hc)
    | .ok x, .ok y =>
      if h : x = y then .isTrue (by rw [h]) else .isFalse (by intro hc; cases hc; exact h rfl)

/-- mem_location.rs, borrow_mut_error: the error raised when the cell's
try_borrow_mut fails — AlreadyBorrowedMut if a write marker is present,
otherwise AlreadyBorrowed carrying the read-marker list. -/
def MemoryLocationBorrowInfo.borrow_mut_error (b : MemoryLocationBorrowInfo) : BorrowMutError :=
  match b.borrowed_mut_at with
  | some l => .AlreadyBorrowedMut l
  | none => .AlreadyBorrowed b.borrowed_at

/-- mem_location.rs, borrow_error: the error raised when the cell's
try_borrow fails. The source unwraps borrowed_mut_at, so the result is
none (a panic) when no write marker is registered. -/
def MemoryLocationBorrowInfo.borrow_error (b : MemoryLocationBorrowInfo) : Option BorrowError :=
  b.borrowed_mut_at.map (fun l => BorrowError.AlreadyBorrowedMut l)

/-- gen_box.rs, validate: the slot's current generation equals the
handle's snapshot. -/
def validate (h : GenerationalBox) (s : MemoryLocation) : Bool :=
  s.generation == h.generation

/-- gen_box.rs try_read composed with UnsyncStorage::try_read: the stale
path returns Dropped before any borrow info exists; otherwise a
GenerationalRefBorrowInfo carrying the caller's location is built and
passed down — try_borrow the cell (failure consults borrow_error, which
can panic), downcast (absent value or tag mismatch is Dropped), and on
success keep the shared borrow, move the info into the guard and push
the caller's marker. On the non-stale error paths the info is dropped at
function exit, and its Drop impl runs the un-negated Vec::retain on
borrowed_at with the caller's location (the error value is built before
that drop). The result is none on panic, otherwise the outcome together
with the new slot state. -/
def tryRead (h : GenerationalBox) (caller : Location) (s : MemoryLocation) :
    Option (Except BorrowError GenerationalRef × MemoryLocation) :=
  if s.generation ≠ h.generation then
    some (Except.error (BorrowError.Dropped h.created_at), s)
  else if s.flag = BorrowFlag.writing then
    match s.borrow.borrow_error with
    | some e =>
      some (Except.error e,
        { s with borrow := { s.borrow with
            borrowed_at := s.borrow.borrowed_at.filter (fun l => l == caller) } })
    | none => none
  else
    match s.data with
    | some b =>
      if b.ty = h.ty then
        some (Except.ok { value := b.val, borrowed_at := caller },
          { s with
            flag := incReaders s.flag,
            borrow := { s.borrow with borrowed_at := s.borrow.borrowed_at ++ [caller] } })
      else
        some (Except.error (BorrowError.Dropped h.created_at),
          { s with borrow := { s.borrow with
              borrowed_at := s.borrow.borrowed_at.filter (fun l => l == caller) } })
    | none =>
      some (Except.error (BorrowError.Dropped h.created_at),
        { s with borrow := { s.borrow with
            borrowed_at := s.borrow.borrowed_at.filter (fun l => l == caller) } })

/-- gen_box.rs try_write composed with UnsyncStorage::try_write: the
stale path returns Dropped before any borrow info exists; otherwise a
GenerationalRefMutBorrowInfo is built and passed down — try_borrow_mut
the cell (failure consults borrow_mut_error, whose error value is built
before any drop), downcast, and on success take the exclusive borrow,
move the info into the guard and record the caller's write marker. On
the non-stale error paths the info is dropped at function exit, and its
Drop impl take()s borrowed_mut_at. No panic is possible. -/
def tryWrite (h : GenerationalBox) (caller : Location) (s : MemoryLocation) :
    Except BorrowMutError GenerationalRefMut × MemoryLocation :=
  if s.generation ≠ h.generation then
    (Except.error (BorrowMutError.Dropped h.created_at), s)
  else if s.flag ≠ BorrowFlag.idle then
    (Except.error s.borrow.borrow_mut_error,
      { s with borrow := { s.borrow with borrowed_mut_at := none } })
  else
    match s.data with
    | some b =>
      if b.ty = h.ty then
        (Except.ok { value := b.val },
          { s with
            flag := BorrowFlag.writing,
            borrow := { s.borrow with borrowed_mut_at := some caller } })
      else
        (Except.error (BorrowMutError.Dropped h.created_at),
          { s with borrow := { s.borrow with borrowed_mut_at := none } })
    | none =>
      (Except.error (BorrowMutError.Dropped h.created_at),
        { s with borrow := { s.borrow with borrowed_mut_at := none } })

/-- gen_box.rs read: try_read().unwrap() — none (a panic) on any error. -/
def read (h : GenerationalBox) (caller : Location) (s : MemoryLocation) :
    Option (GenerationalRef × MemoryLocation) :=
  match tryRead h caller s with
  | some (Except.ok g, s1) => some (g, s1)
  | some (Except.error _, _) => none
  | none => none

/-- gen_box.rs write: try_write().unwrap() — none (a panic) on error. -/
def write (h : GenerationalBox) (caller : Location) (s : MemoryLocation) :
    Option (GenerationalRefMut × MemoryLocation) :=
  match tryWrite h caller s with
  | (Except.ok g, s1) => some (g, s1)
  | (Except.error _, _) => none

/-- gen_box.rs set composed with UnsyncStorage::set: if the handle is
stale the whole call is a no-op (validate().then(..)); if valid, the
cell is borrowed mutably — a panic (none) when a guard is outstanding —
and the value replaced outright, without touching the borrow markers. -/
def set (h : GenerationalBox) (v : Nat) (s : MemoryLocation) : Option MemoryLocation :=
  if s.generation ≠ h.generation then some s
  else if s.flag ≠ BorrowFlag.idle then none
  else some { s with data := some { ty := h.ty, val := v } }

/-- The slot-state part of gen_box.rs dispose composed with
UnsyncStorage::dispose: borrow_mut the cell (a panic — none — when a
guard is outstanding), drop the value, then fetch_add(1) the u32
generation. The freelist push is handled at the runtime level. -/
def disposeSlot (s : MemoryLocation) : Option MemoryLocation :=
  if s.flag ≠ BorrowFlag.idle then none
  else some { s with data := none, generation := (s.generation + 1) % genMod }

/-- references.rs, Drop for GenerationalRefBorrowInfo: release the shared
cell borrow, and retain in borrowed_at the markers pointer-equal to this
guard's marker (the source calls Vec::retain with that predicate, so
matching markers are kept and all others removed). -/
def dropRef (g : GenerationalRef) (s : MemoryLocation) : MemoryLocation :=
  { s with
    flag := decReaders s.flag,
    borrow := { s.borrow with
      borrowed_at := s.borrow.borrowed_at.filter (fun l => l == g.borrowed_at) } }

/-- references.rs, Drop for GenerationalRefMutBorrowInfo: release the
exclusive cell borrow and take() the write marker. -/
def dropRefMut (s : MemoryLocation) : MemoryLocation :=
  { s with
    flag := BorrowFlag.idle,
    borrow := { s.borrow with borrowed_mut_at := none } }

/-- UnsyncStorage::try_map: project a read guard. On success the original
borrow info is moved into the new guard (nothing is dropped, the slot
state is unchanged); on failure both the Ref and the borrow info are
dropped, i.e. the effect of dropping the original guard. -/
def tryMap (g : GenerationalRef) (f : Nat → Option Nat) (s : MemoryLocation) :
    Option GenerationalRef × MemoryLocation :=
  match f g.value with
  | some w => (some { value := w, borrowed_at := g.borrowed_at }, s)
  | none => (none, dropRef g s)

/-- UnsyncStorage::try_map_mut: project a write guard. The source
destructures the guard, builds a fresh GenerationalRefMutBorrowInfo for
the projected guard, and lets the original info drop — whose Drop impl
take()s the write marker — while on failure the RefMut is dropped as
well, releasing the exclusive cell borrow. -/
def tryMapMut (g : GenerationalRefMut) (f : Nat → Option Nat) (s : MemoryLocation) :
    Option GenerationalRefMut × MemoryLocation :=
  match f g.value with
  | some w =>
    (some { value := w },
      { s with borrow := { s.borrow with borrowed_mut_at := none } })
  | none =>
    (none,
      { s with
        flag := BorrowFlag.idle,
        borrow := { s.borrow with borrowed_mut_at := none } })

/-- storage.rs map_mut: try_map_mut with a total projection, unwrapped
(none would be a panic). -/
def mapMut (g : GenerationalRefMut) (f : Nat → Nat) (s : MemoryLocation) :
    Option (GenerationalRefMut × MemoryLocation) :=
  match tryMapMut g (fun v => some (f v)) s with
  | (some g1, s1) => some (g1, s1)
  | (none, _) => none

/-- unsync.rs: the slot a fresh MemoryLocation is leaked with — no value,
generation 0, default (empty) borrow metadata, and an unborrowed cell. -/
def freshLocation : MemoryLocation :=
  { data := none
    flag := BorrowFlag.idle
    generation := 0
    borrow := { borrowed_at := [], borrowed_mut_at := none } }

/-- unsync.rs: the thread-local runtime — the arena of slots (addresses
are stable, so a slot is its index) and the freelist Vec. The Vec's top
(its end, where push and pop act) is the head of the list here. -/
structure Runtime where
  slots : List MemoryLocation
  freelist : List Nat
deriving DecidableEq, Repr

/-- The slot at a given address (indices handed out by claim are always
in range; the default is never reached through the API). -/
def slotAt (rt : Runtime) (i : Nat) : MemoryLocation :=
  rt.slots.getD i freshLocation

/-- Replace the slot at an address. -/
def setSlot (rt : Runtime) (i : Nat) (s : MemoryLocation) : Runtime :=
  { rt with slots := rt.slots.set i s }

/-- gen_box.rs claim composed with UnsyncStorage::claim: pop a recycled
slot off the freelist, or leak a brand-new one; the handle snapshots the
slot's current generation. -/
def claim (ty : Nat) (created_at : Location) (rt : Runtime) : GenerationalBox × Runtime :=
  match rt.freelist with
  | i :: rest =>
    ({ slot := i, generation := (slotAt rt i).generation, created_at := created_at, ty := ty },
      { rt with freelist := rest })
  | [] =>
    ({ slot := rt.slots.length, generation := 0, created_at := created_at, ty := ty },
      { slots := rt.slots ++ [freshLocation], freelist := [] })

/-- gen_box.rs dispose composed with UnsyncStorage::dispose: performed on
any handle with no generation check — take() the value out of the cell
(a panic, none, if a guard is outstanding), push the slot onto the
freelist (unconditionally, even if it is already there), and fetch_add(1)
the slot's generation. -/
def dispose (h : GenerationalBox) (rt : Runtime) : Option Runtime :=
  match disposeSlot (slotAt rt h.slot) with
  | none => none
  | some s1 => some { setSlot rt h.slot s1 with freelist := h.slot :: rt.freelist }

/-- validate through the runtime. -/
def validateRT (h : GenerationalBox) (rt : Runtime) : Bool :=
  validate h (slotAt rt h.slot)

/-- set through the runtime. -/
def setRT (h : GenerationalBox) (v : Nat) (rt : Runtime) : Option Runtime :=
  (set h v (slotAt rt h.slot)).map (fun s1 => setSlot rt h.slot s1)

/-!
A small language of subsequent API calls acting on one slot, used to
state the temporal claims (operations on other slots, and claim itself,
do not change a slot's fields). Projection calls carry the value the
projection function returns on the guard at hand rather than the
function itself, which loses no behaviours.
-/

/-- One API call acting on a slot. -/
inductive SlotOp where
  | tryReadOp (h : GenerationalBox) (caller : Location)
  | tryWriteOp (h : GenerationalBox) (caller : Location)
  | setOp (h : GenerationalBox) (v : Nat)
  | disposeOp
  | dropRefOp (g : GenerationalRef)
  | dropRefMutOp
  | tryMapOp (g : GenerationalRef) (res : Option Nat)
  | tryMapMutOp (g : GenerationalRefMut) (res : Option Nat)
deriving DecidableEq, Repr

/-- The slot state after one call; none when the call panics. -/
def stepOp (op : SlotOp) (s : MemoryLocation) : Option MemoryLocation :=
  match op with
  | .tryReadOp h c => (tryRead h c s).map Prod.snd
  | .tryWriteOp h c => some (tryWrite h c s).2
  | .setOp h v => set h v s
  | .disposeOp => disposeSlot s
  | .dropRefOp g => some (dropRef g s)
  | .dropRefMutOp => some (dropRefMut s)
  | .tryMapOp g res => some (tryMap g (fun _ => res) s).2
  | .tryMapMutOp g res => some (tryMapMut g (fun _ => res) s).2

/-- The slot state after a sequence of calls; none when some call panics. -/
def run : List SlotOp → MemoryLocation → Option MemoryLocation
  | [], s => some s
  | op :: ops, s => (stepOp op s).bind (run ops)

/-- How many of the calls bump the generation (i.e. are disposals). -/
def countD : List SlotOp → Nat
  | [] => 0
  | op :: ops => countD ops + (if op = SlotOp.disposeOp then 1 else 0)

/-- h.dispose() iterated n times (at slot level); none if some call panics. -/
def iterDispose : Nat → MemoryLocation → Option MemoryLocation
  | 0, s => some s
  | n + 1, s => (disposeSlot s).bind (iterDispose n)

/-! Helper lemmas about the generation counter along call sequences. -/

/-- The slot-state effect of one successful (non-panicking) disposal. -/
def wipe (s : MemoryLocation) : MemoryLocation :=
  { s with data := none, generation := (s.generation + 1) % genMod }

lemma disposeSlot_of_idle (s : MemoryLocation) (h : s.flag = BorrowFlag.idle) :
    disposeSlot s = some (wipe s) := by
  simp [disposeSlot, h, wipe]

/-- The slot state after n successful disposals. -/
def disposeN : Nat → MemoryLocation → MemoryLocation
  | 0, s => s
  | n + 1, s => disposeN n (wipe s)

lemma disposeN_flag (n : Nat) (s : MemoryLocation) : (disposeN n s).flag = s.flag := by
  induction n generalizing s with
  | zero => rfl
  | succ n ih => simpa [disposeN, wipe] using ih (wipe s)

lemma disposeN_borrow (n : Nat) (s : MemoryLocation) : (disposeN n s).borrow = s.borrow := by
  induction n generalizing s with
  | zero => rfl
  | succ n ih => simpa [disposeN, wipe] using ih (wipe s)

lemma disposeN_gen (n : Nat) (s : MemoryLocation) (hg : s.generation < genMod) :
    (disposeN n s).generation = (s.generation + n) % genMod := by
  induction n generalizing s with
  | zero => simpa [disposeN] using (Nat.mod_eq_of_lt hg).symm
  | succ n ih =>
    have hlt : (wipe s).generation < genMod := by
      show (s.generation + 1) % genMod < genMod
      exact Nat.mod_lt _ (by norm_num [genMod])
    show (disposeN n (wipe s)).generation = _
    rw [ih (wipe s) hlt]
    show ((s.generation + 1) % genMod + n) % genMod = (s.generation + (n + 1)) % genMod
    rw [Nat.mod_add_mod]
    ring_nf

lemma disposeN_data (n : Nat) (s : MemoryLocation) (hn : 0 < n) :
    (disposeN n s).data = none := by
  induction n generalizing s with
  | zero => exact absurd hn (by simp)
  | succ n ih =>
    cases n with
    | zero => simp [disposeN, wipe]
    | succ m => simpa [disposeN] using ih (wipe s) (Nat.succ_pos m)

lemma iterDispose_of_idle (n : Nat) (s : MemoryLocation) (h : s.flag = BorrowFlag.idle) :
    iterDispose n s = some (disposeN n s) := by
  induction n generalizing s with
  | zero => rfl
  | succ n ih =>
    have hw : (wipe s).flag = BorrowFlag.idle := h
    simp [iterDispose, disposeSlot_of_idle s h, disposeN, ih (wipe s) hw]

lemma tryRead_snd_gen (h : GenerationalBox) (c : Location) (s : MemoryLocation)
    {x : Except BorrowError GenerationalRef × MemoryLocation} (hx : tryRead h c s = some x) :
    x.2.generation = s.generation := by
  unfold tryRead at hx
  split at hx
  · cases hx; rfl
  · split at hx
    · split at hx
      · cases hx; rfl
      · cases hx
    · split at hx
      · split at hx
        · cases hx; rfl
        · cases hx; rfl
      · cases hx; rfl

lemma tryWrite_snd_gen (h : GenerationalBox) (c : Location) (s : MemoryLocation) :
    (tryWrite h c s).2.generation = s.generation := by
  unfold tryWrite
  split
  · rfl
  · split
    · rfl
    · split
      · split
        · rfl
        · rfl
      · rfl

lemma set_gen (h : GenerationalBox) (v : Nat) (s : MemoryLocation)
    {s1 : MemoryLocation} (hx : set h v s = some s1) : s1.generation = s.generation := by
  unfold set at hx
  split at hx
  · cases hx; rfl
  · split at hx
    · cases hx
    · cases hx; rfl

lemma stepOp_gen (op : SlotOp) (s : MemoryLocation) {s1 : MemoryLocation}
    (hx : stepOp op s = some s1) :
    s1.generation = (s.generation + (if op = SlotOp.disposeOp then 1 else 0)) % genMod ∨
      (s1.generation = s.generation ∧ op ≠ SlotOp.disposeOp) := by
  cases op with
  | tryReadOp h c =>
    right
    refine ⟨?_, by simp⟩
    simp only [stepOp, Option.map_eq_some'] at hx
    obtain ⟨x, hx1, hx2⟩ := hx
    rw [← hx2]
    exact tryRead_snd_gen h c s hx1
  | tryWriteOp h c =>
    right
    refine ⟨?_, by simp⟩
    simp only [stepOp, Option.some_inj] at hx
    rw [← hx]
    exact tryWrite_snd_gen h c s
  | setOp h v =>
    right
    exact ⟨set_gen h v s hx, by simp⟩
  | disposeOp =>
    left
    simp only [stepOp, disposeSlot] at hx
    split at hx
    · cases hx
    · cases hx; simp
  | dropRefOp g =>
    right
    refine ⟨?_, by simp⟩
    simp only [stepOp, Option.some_inj] at hx
    rw [← hx]; rfl
  | dropRefMutOp =>
    right
    refine ⟨?_, by simp⟩
    simp only [stepOp, Option.some_inj] at hx
    rw [← hx]; rfl
  | tryMapOp g res =>
    right
    refine ⟨?_, by simp⟩
    simp only [stepOp, Option.some_inj] at hx
    rw [← hx]
    cases res <;> rfl
  | tryMapMutOp g res =>
    right
    refine ⟨?_, by simp⟩
    simp only [stepOp, Option.some_inj] at hx
    rw [← hx]
    cases res <;> rfl

/-- Along any sequence of non-panicking calls, the slot's generation
advances by exactly the number of disposals, modulo 2 ^ 32. -/
lemma run_gen (ops : List SlotOp) (s : MemoryLocation) {s2 : MemoryLocation}
    (hx : run ops s = some s2) (hg : s.generation < genMod) :
    s2.generation = (s.generation + countD ops) % genMod := by
  induction ops generalizing s with
  | nil =>
    cases hx
    simpa [countD] using (Nat.mod_eq_of_lt hg).symm
  | cons op ops ih =>
    simp only [run, Option.bind_eq_some] at hx
    obtain ⟨s1, hs1, hs2⟩ := hx
    have hlt : s1.generation < genMod := by
      rcases stepOp_gen op s hs1 with hgen | ⟨hgen, _⟩
      · rw [hgen]; exact Nat.mod_lt _ (by norm_num [genMod])
      · rw [hgen]; exact hg
    have hrest := ih s1 hs2 hlt
    rcases stepOp_gen op s hs1 with hgen | ⟨hgen, hne⟩
    · rw [hrest, hgen, Nat.mod_add_mod, countD]
      ring_nf
    · rw [hrest, hgen]
      simp [countD, hne]

lemma MemoryLocation.fieldsEq {a b : MemoryLocation} (h1 : a.data = b.data)
    (h2 : a.flag = b.flag) (h3 : a.generation = b.generation) (h4 : a.borrow = b.borrow) :
    a = b := by
  cases a; cases b; simp_all

/-- The literal value of the generation modulus. -/
lemma genMod_val : genMod = 4294967296 := by norm_num [genMod]

/-! ## Claim C1 -/

/-- Claim C1 (amended): for a Handle h valid at the moment of
h.dispose(), immediately after the dispose h.validate() is false, and at
every subsequent point reached without a panic — provided the number of
further disposals of the slot does not make the u32 generation counter
wrap back around to h's snapshot (fewer than 2 ^ 32 - 1 of them suffices)
— h.try_read() fails with Dropped (carrying h's creation site),
h.try_write() fails with Dropped, and the panicking h.read() and
h.write() panic. -/
theorem C1_dispose_invalidates (h : GenerationalBox) (s s1 s2 : MemoryLocation)
    (ops : List SlotOp) (c : Location)
    (hval : validate h s = true) (hg : s.generation < genMod)
    (hdisp : disposeSlot s = some s1) (hrun : run ops s1 = some s2)
    (hk : countD ops % genMod ≠ genMod - 1) :
    validate h s1 = false ∧ validate h s2 = false ∧
    tryRead h c s2 = some (Except.error (BorrowError.Dropped h.created_at), s2) ∧
    tryWrite h c s2 = (Except.error (BorrowMutError.Dropped h.created_at), s2) ∧
    read h c s2 = none ∧ write h c s2 = none := by
  have hvg : s.generation = h.generation := by
    simpa [validate] using hval
  have hs1 : s1 = wipe s := by
    unfold disposeSlot at hdisp
    split at hdisp
    · cases hdisp
    · cases hdisp; rfl
  have hg1 : s1.generation = (s.generation + 1) % genMod := by rw [hs1]; rfl
  have hlt1 : s1.generation < genMod := by
    rw [hg1]; exact Nat.mod_lt _ (by norm_num [genMod])
  have hg2 : s2.generation = (s.generation + 1 + countD ops) % genMod := by
    rw [run_gen ops s1 hrun hlt1, hg1, Nat.mod_add_mod]
  have hM := genMod_val
  have hne1 : s1.generation ≠ h.generation := by
    rw [hg1, ← hvg, hM]
    rw [hM] at hg
    omega
  have hne2 : s2.generation ≠ h.generation := by
    rw [hg2, ← hvg, hM]
    rw [hM] at hg hk
    omega
  refine ⟨?_, ?_, ?_, ?_, ?_, ?_⟩
  · simp [validate, hne1]
  · simp [validate, hne2]
  · simp [tryRead, hne2]
  · simp [tryWrite, hne2]
  · simp [read, tryRead, hne2]
  · simp [write, tryWrite, hne2]

def hC1 : GenerationalBox := { slot := 0, generation := 0, created_at := 9, ty := 3 }

/-- Witness for C1: a fresh valid handle on a fresh slot, disposed, with
no further calls. -/
theorem C1_dispose_invalidates_witness :
    validate hC1 freshLocation = true ∧
    (validate hC1 (wipe freshLocation) = false ∧
      validate hC1 (wipe freshLocation) = false ∧
      tryRead hC1 5 (wipe freshLocation) =
        some (Except.error (BorrowError.Dropped 9), wipe freshLocation) ∧
      tryWrite hC1 5 (wipe freshLocation) =
        (Except.error (BorrowMutError.Dropped 9), wipe freshLocation) ∧
      read hC1 5 (wipe freshLocation) = none ∧
      write hC1 5 (wipe freshLocation) = none) :=
  ⟨by decide,
    C1_dispose_invalidates hC1 freshLocation (wipe freshLocation) (wipe freshLocation) [] 5
      (by decide) (by decide) (by decide) rfl (by decide)⟩

def sC1mid : MemoryLocation :=
  { data := none
    flag := BorrowFlag.idle
    generation := 0
    borrow := { borrowed_at := [], borrowed_mut_at := none } }

def sC1fin : MemoryLocation :=
  { data := some { ty := 3, val := 42 }
    flag := BorrowFlag.idle
    generation := 0
    borrow := { borrowed_at := [], borrowed_mut_at := none } }

/-- Counterexample to C1 as stated: starting from a fresh slot with the
valid handle hC1, calling h.dispose() 2 ^ 32 times in a row (each one
legal: dispose never checks the generation) wraps the u32 generation
back to h's snapshot, so immediately after the last h.dispose() the
claimed conjunct h.validate() = false fails — validate is true — and
after h.set(42) (accepted, since h revalidated) the claimed conjunct
that every subsequent h.try_read() fails with Dropped fails too: the
read succeeds and yields 42. -/
theorem C1_wraparound_cex :
    iterDispose genMod freshLocation = some sC1mid ∧
    validate hC1 sC1mid = true ∧
    set hC1 42 sC1mid = some sC1fin ∧
    (tryRead hC1 77 sC1fin).map Prod.fst =
      some (Except.ok { value := 42, borrowed_at := 77 }) := by
  have hdn : disposeN genMod freshLocation = sC1mid := by
    apply MemoryLocation.fieldsEq
    · exact disposeN_data genMod freshLocation (by norm_num [genMod])
    · exact disposeN_flag genMod freshLocation
    · rw [disposeN_gen genMod freshLocation (by norm_num [freshLocation, genMod])]
      simp [freshLocation, sC1mid]
    · exact disposeN_borrow genMod freshLocation
  refine ⟨?_, by decide, by decide, by decide⟩
  rw [iterDispose_of_idle genMod freshLocation rfl, hdn]

/-! More list helpers for the runtime level. -/

lemma getD_set_self {α : Type} (l : List α) (i : Nat) (a d : α) (h : i < l.length) :
    (l.set i a).getD i d = a := by
  induction l generalizing i with
  | nil => simp at h
  | cons x xs ih =>
    cases i with
    | zero => rfl
    | succ j => simpa [List.getD] using ih j (by simpa using h)

lemma getD_concat {α : Type} (l : List α) (a d : α) : (l ++ [a]).getD l.length d = a := by
  induction l with
  | nil => rfl
  | cons x xs ih => simpa [List.getD] using ih

/-- A shared concrete handle: slot 0, generation snapshot 0, created at
location 9, type tag 3. -/
def hB : GenerationalBox := { slot := 0, generation := 0, created_at := 9, ty := 3 }

/-! ## Claim C2 -/

def sC2a : MemoryLocation :=
  { data := some { ty := 3, val := 10 }
    flag := BorrowFlag.idle
    generation := 0
    borrow := { borrowed_at := [], borrowed_mut_at := none } }

def sC2b : MemoryLocation :=
  { data := some { ty := 3, val := 10 }
    flag := BorrowFlag.reading 1
    generation := 0
    borrow := { borrowed_at := [11], borrowed_mut_at := none } }

def sC2c : MemoryLocation :=
  { data := some { ty := 3, val := 10 }
    flag := BorrowFlag.reading 2
    generation := 0
    borrow := { borrowed_at := [11, 22], borrowed_mut_at := none } }

/-- Claim C2, evaluation of the code at the failing input: two read
guards taken at locations 11 and 22, so borrowed_at = [11, 22]; dropping
the first guard (marker 11) leaves borrowed_at = [11] — the released
guard's own marker is kept and the other guard's marker 22 removed,
because references.rs calls Vec::retain with ptr::eq un-negated — where
the claim demands [22]. Dropping a write guard does clear the single
write marker, as the claim's second half says. -/
theorem C2_code_eval :
    set hB 10 freshLocation = some sC2a ∧
    (tryRead hB 11 sC2a).map Prod.snd = some sC2b ∧
    (tryRead hB 22 sC2b).map Prod.snd = some sC2c ∧
    dropRef { value := 10, borrowed_at := 11 } sC2c =
      { sC2c with
        flag := BorrowFlag.reading 1,
        borrow := { borrowed_at := [11], borrowed_mut_at := none } } ∧
    ([11] : List Location) ≠ [22] ∧
    (dropRefMut
      { data := some { ty := 3, val := 10 }
        flag := BorrowFlag.writing
        generation := 0
        borrow := { borrowed_at := [], borrowed_mut_at := some 44 } }).borrow.borrowed_mut_at
      = none := by
  decide

/-! ## Claim C3 -/

/-- Claim C3 (amended): for a Handle h that is valid when disposed, the
next claim() pops the same slot and produces a Handle whose generation
snapshot is h's snapshot plus one modulo 2 ^ 32 — exactly one greater
whenever h's snapshot is below 2 ^ 32 - 1 — and h.validate() stays false
at every later panic-free point as long as the number of further
disposals of that slot does not wrap the u32 generation counter back
around to h's snapshot. -/
theorem C3_claim_after_dispose (h : GenerationalBox) (rt rt1 : Runtime) (ty2 ca2 : Nat)
    (ops : List SlotOp) (s2 : MemoryLocation)
    (hlt : h.slot < rt.slots.length)
    (hval : validateRT h rt = true)
    (hg : (slotAt rt h.slot).generation < genMod)
    (hdisp : dispose h rt = some rt1)
    (hrun : run ops (slotAt rt1 h.slot) = some s2)
    (hk : countD ops % genMod ≠ genMod - 1) :
    (claim ty2 ca2 rt1).1.slot = h.slot ∧
    (claim ty2 ca2 rt1).1.generation = (h.generation + 1) % genMod ∧
    (h.generation < genMod - 1 → (claim ty2 ca2 rt1).1.generation = h.generation + 1) ∧
    validate h s2 = false := by
  have hvg : (slotAt rt h.slot).generation = h.generation := by
    simpa [validateRT, validate] using hval
  have hrt1 : rt1 =
      { setSlot rt h.slot (wipe (slotAt rt h.slot)) with freelist := h.slot :: rt.freelist } := by
    unfold dispose at hdisp
    rw [disposeSlot_of_idle _ ?hf] at hdisp
    · cases hdisp; rfl
    case hf =>
      by_contra hne
      rw [show disposeSlot (slotAt rt h.slot) = none from by simp [disposeSlot, hne]] at hdisp
      cases hdisp
  have hslot1 : slotAt rt1 h.slot = wipe (slotAt rt h.slot) := by
    rw [hrt1]
    exact getD_set_self rt.slots h.slot _ _ hlt
  have hfree : rt1.freelist = h.slot :: rt.freelist := by rw [hrt1]
  have hclaim :
      (claim ty2 ca2 rt1).1 =
        { slot := h.slot, generation := (slotAt rt1 h.slot).generation,
          created_at := ca2, ty := ty2 } := by
    unfold claim
    rw [hfree]
  have hgen1 : (slotAt rt1 h.slot).generation = (h.generation + 1) % genMod := by
    rw [hslot1, ← hvg]; rfl
  have hM := genMod_val
  refine ⟨by rw [hclaim], by rw [hclaim, hgen1], ?_, ?_⟩
  · intro hlt2
    rw [hclaim, hgen1, Nat.mod_eq_of_lt (by rw [hM] at hlt2 ⊢; omega)]
  · have hlt1 : (slotAt rt1 h.slot).generation < genMod := by
      rw [hgen1]; exact Nat.mod_lt _ (by norm_num [genMod])
    have hg2 : s2.generation = (h.generation + 1 + countD ops) % genMod := by
      rw [run_gen ops _ hrun hlt1, hgen1, Nat.mod_add_mod]
    have hne2 : s2.generation ≠ h.generation := by
      rw [hg2, hM]
      rw [hM] at hk hg
      rw [hvg] at hg
      omega
    simp [validate, hne2]

def rtC3 : Runtime := { slots := [freshLocation], freelist := [] }

def rtC3d : Runtime :=
  { slots := [{ data := none
                flag := BorrowFlag.idle
                generation := 1
                borrow := { borrowed_at := [], borrowed_mut_at := none } }]
    freelist := [0] }

/-- Witness for C3: a valid handle on a one-slot runtime, disposed, with
no further calls before the next claim. -/
theorem C3_claim_after_dispose_witness :
    validateRT hB rtC3 = true ∧
    ((claim 3 8 rtC3d).1.slot = hB.slot ∧
      (claim 3 8 rtC3d).1.generation = (hB.generation + 1) % genMod ∧
      (hB.generation < genMod - 1 → (claim 3 8 rtC3d).1.generation = hB.generation + 1) ∧
      validate hB (slotAt rtC3d 0) = false) :=
  ⟨by decide,
    C3_claim_after_dispose hB rtC3 rtC3d 3 8 [] (slotAt rtC3d 0)
      (by decide) (by decide) (by decide) (by decide) rfl (by decide)⟩

def rtEmpty : Runtime := { slots := [], freelist := [] }

def rtC3x2 : Runtime :=
  { slots := [{ data := none
                flag := BorrowFlag.idle
                generation := 1
                borrow := { borrowed_at := [], borrowed_mut_at := none } }]
    freelist := [0] }

def rtC3x3 : Runtime :=
  { slots := [{ data := none
                flag := BorrowFlag.idle
                generation := 2
                borrow := { borrowed_at := [], borrowed_mut_at := none } }]
    freelist := [0, 0] }

def sC3mid : MemoryLocation :=
  { data := none
    flag := BorrowFlag.idle
    generation := 0
    borrow := { borrowed_at := [], borrowed_mut_at := none } }

/-- Counterexample to C3 as stated, in both halves. First: hB is claimed
(snapshot 0) and disposed twice — dispose never checks the generation, so
the second, stale disposal is accepted and bumps the slot to generation
2; the next claim() that reuses the slot then snapshots 2, not
hB.generation + 1 = 1. Second: a valid handle disposed 2 ^ 32 times in a
row (dispose/claim cycles on the slot) wraps the u32 counter back to its
snapshot, so validate() does not remain false forever — it is true
again. -/
theorem C3_cex :
    claim 3 9 rtEmpty = (hB, { slots := [freshLocation], freelist := [] }) ∧
    dispose hB { slots := [freshLocation], freelist := [] } = some rtC3x2 ∧
    dispose hB rtC3x2 = some rtC3x3 ∧
    (claim 3 9 rtC3x3).1.slot = hB.slot ∧
    (claim 3 9 rtC3x3).1.generation = 2 ∧
    hB.generation + 1 = 1 ∧
    iterDispose genMod sC3mid = some sC3mid ∧
    validate hB sC3mid = true := by
  refine ⟨by decide, by decide, by decide, by decide, by decide, by decide, ?_, by decide⟩
  have hdn : disposeN genMod sC3mid = sC3mid := by
    apply MemoryLocation.fieldsEq
    · exact disposeN_data genMod sC3mid (by norm_num [genMod])
    · exact disposeN_flag genMod sC3mid
    · rw [disposeN_gen genMod sC3mid (by norm_num [sC3mid, genMod])]
      simp [sC3mid]
    · exact disposeN_borrow genMod sC3mid
  rw [iterDispose_of_idle genMod sC3mid rfl, hdn]

/-! ## Claim C4 -/

def sC4a : MemoryLocation :=
  { data := some { ty := 3, val := 10 }
    flag := BorrowFlag.idle
    generation := 0
    borrow := { borrowed_at := [], borrowed_mut_at := none } }

def sC4b : MemoryLocation :=
  { data := some { ty := 3, val := 10 }
    flag := BorrowFlag.reading 1
    generation := 0
    borrow := { borrowed_at := [1], borrowed_mut_at := none } }

def sC4c : MemoryLocation :=
  { data := some { ty := 3, val := 10 }
    flag := BorrowFlag.reading 2
    generation := 0
    borrow := { borrowed_at := [1, 2], borrowed_mut_at := none } }

def sC4d : MemoryLocation :=
  { data := some { ty := 3, val := 10 }
    flag := BorrowFlag.reading 1
    generation := 0
    borrow := { borrowed_at := [1], borrowed_mut_at := none } }

/-- Claim C4, evaluation of the code at the failing input: read guards
are taken at locations 1 and 2 and the guard taken at 1 is dropped, so
the one outstanding read guard is the one taken at location 2; try_write
then does fail with AlreadyBorrowed, but the error carries [1] — the
location of the already-released read — instead of the complete list of
outstanding read locations [2], because the buggy marker release of
references.rs kept the dropped guard's marker and removed the live one. -/
theorem C4_code_eval :
    set hB 10 freshLocation = some sC4a ∧
    tryRead hB 1 sC4a = some (Except.ok { value := 10, borrowed_at := 1 }, sC4b) ∧
    tryRead hB 2 sC4b = some (Except.ok { value := 10, borrowed_at := 2 }, sC4c) ∧
    dropRef { value := 10, borrowed_at := 1 } sC4c = sC4d ∧
    tryWrite hB 7 sC4d = (Except.error (BorrowMutError.AlreadyBorrowed [1]), sC4d) ∧
    ([1] : List Location) ≠ [2] := by
  decide

/-! ## Claim C5 -/

/-- Claim C5 (amended): for a valid Handle with no guard outstanding on
the cell, set(v) replaces the slot's value outright and leaves the
generation, the cell flag and all borrow markers untouched (it bypasses
the read/write guard protocol); for a stale Handle, set(v) is a complete
no-op; but for a valid Handle with a guard outstanding, the unsync
set(v) panics — the overwrite is not unconditional. -/
theorem C5_set_semantics (h : GenerationalBox) (s : MemoryLocation) (v : Nat) :
    (validate h s = true → s.flag = BorrowFlag.idle →
      set h v s = some { s with data := some { ty := h.ty, val := v } }) ∧
    (validate h s = false → set h v s = some s) ∧
    (validate h s = true → s.flag ≠ BorrowFlag.idle → set h v s = none) := by
  refine ⟨?_, ?_, ?_⟩
  · intro hv hf
    have hvg : s.generation = h.generation := by simpa [validate] using hv
    simp [set, hvg, hf]
  · intro hv
    have hvg : s.generation ≠ h.generation := by simpa [validate] using hv
    simp [set, hvg]
  · intro hv hf
    have hvg : s.generation = h.generation := by simpa [validate] using hv
    simp [set, hvg, hf]

def sC5r : MemoryLocation :=
  { data := some { ty := 3, val := 10 }
    flag := BorrowFlag.reading 1
    generation := 0
    borrow := { borrowed_at := [1], borrowed_mut_at := none } }

def hStale : GenerationalBox := { slot := 0, generation := 7, created_at := 9, ty := 3 }

/-- Witness for C5: the overwrite branch on a fresh valid handle, the
no-op branch on a stale handle, and the panic branch under an
outstanding read guard. -/
theorem C5_set_semantics_witness :
    (validate hB sC4a = true ∧ sC4a.flag = BorrowFlag.idle ∧
      set hB 42 sC4a = some { sC4a with data := some { ty := 3, val := 42 } }) ∧
    (validate hStale sC4a = false ∧ set hStale 42 sC4a = some sC4a) ∧
    (validate hB sC5r = true ∧ sC5r.flag ≠ BorrowFlag.idle ∧ set hB 42 sC5r = none) :=
  ⟨⟨by decide, by decide, (C5_set_semantics hB sC4a 42).1 (by decide) (by decide)⟩,
    ⟨by decide, (C5_set_semantics hStale sC4a 42).2.1 (by decide)⟩,
    ⟨by decide, by decide, (C5_set_semantics hB sC5r 42).2.2 (by decide) (by decide)⟩⟩

/-- Counterexample to C5 as stated: hB is valid on the slot throughout;
with a read guard outstanding (taken at location 1), h.set(42) panics —
the unsync storage's borrow_mut() of the occupied cell — rather than
replacing the value as the claimed unconditional overwrite would. -/
theorem C5_cex :
    set hB 10 freshLocation = some sC4a ∧
    (tryRead hB 1 sC4a).map Prod.snd = some sC5r ∧
    validate hB sC5r = true ∧
    set hB 42 sC5r = none := by
  decide

/-! ## Claim C6 -/

/-- Claim C6: round-trip — for a valid Handle h, once h.set(v) completes,
a subsequent h.read() yields a guard that dereferences to v. -/
theorem C6_set_read_roundtrip (h : GenerationalBox) (s s1 : MemoryLocation) (v : Nat)
    (c : Location) (hval : validate h s = true) (hset : set h v s = some s1) :
    ∃ s2, read h c s1 = some ({ value := v, borrowed_at := c }, s2) := by
  have hvg : s.generation = h.generation := by simpa [validate] using hval
  unfold set at hset
  split at hset
  · rename_i hcond
    exact absurd hvg hcond
  · split at hset
    · cases hset
    · rename_i hcond hflag
      rw [not_not] at hflag
      cases hset
      refine ⟨{ s with
        data := some { ty := h.ty, val := v },
        flag := BorrowFlag.reading 1,
        borrow := { s.borrow with borrowed_at := s.borrow.borrowed_at ++ [c] } }, ?_⟩
      simp [read, tryRead, hvg, hflag, incReaders]

def sC6b : MemoryLocation :=
  { data := some { ty := 3, val := 42 }
    flag := BorrowFlag.idle
    generation := 0
    borrow := { borrowed_at := [], borrowed_mut_at := none } }

/-- Witness for C6: set 42 on a fresh valid handle, then read it back. -/
theorem C6_set_read_roundtrip_witness :
    validate hB freshLocation = true ∧
    ∃ s2, read hB 5 sC6b = some ({ value := 42, borrowed_at := 5 }, s2) :=
  ⟨by decide, C6_set_read_roundtrip hB freshLocation sC6b 42 5 (by decide) (by decide)⟩

/-! ## Claims C7 and C10: write guards and projection. -/

/-- A successful try_write on a valid handle over an idle, matching cell:
the guard dereferences to the stored payload, the cell becomes
exclusively borrowed and the caller's write marker is recorded. -/
lemma tryWrite_ok (h : GenerationalBox) (s : MemoryLocation) (v : Nat) (lw : Location)
    (hvg : s.generation = h.generation) (hflag : s.flag = BorrowFlag.idle)
    (hdata : s.data = some { ty := h.ty, val := v }) :
    tryWrite h lw s =
      (Except.ok { value := v },
        { s with
          flag := BorrowFlag.writing,
          borrow := { s.borrow with borrowed_mut_at := some lw } }) := by
  simp [tryWrite, hvg, hflag, hdata]

/-- Claim C7: a write guard projected with map_mut/try_map_mut releases
the original slot's borrow exactly once — dropping the projected guard
leaves the cell idle with no write marker, so a subsequent try_write on
the same Handle succeeds — and a try_map_mut (or a read-side try_map)
whose projection returns none leaves the slot in exactly the state of
having dropped the original guard once: neither a duplicated nor a lost
release, never a half-released borrow. -/
theorem C7_projection_release (h : GenerationalBox) (s s1 : MemoryLocation)
    (g : GenerationalRefMut) (v w : Nat) (lw lw2 : Location) (f fN : Nat → Option Nat)
    (hval : validate h s = true) (hflag : s.flag = BorrowFlag.idle)
    (hdata : s.data = some { ty := h.ty, val := v })
    (hw : tryWrite h lw s = (Except.ok g, s1))
    (hf : f v = some w) (hfN : fN v = none) :
    tryMapMut g f s1 =
      (some { value := w }, { s1 with borrow := { s1.borrow with borrowed_mut_at := none } }) ∧
    (tryWrite h lw2
        (dropRefMut { s1 with borrow := { s1.borrow with borrowed_mut_at := none } })).1 =
      Except.ok { value := v } ∧
    tryMapMut g fN s1 = (none, dropRefMut s1) ∧
    (tryWrite h lw2 (tryMapMut g fN s1).2).1 = Except.ok { value := v } ∧
    (∀ (fR : Nat → Option Nat) (gr : GenerationalRef) (s3 : MemoryLocation),
      fR gr.value = none → tryMap gr fR s3 = (none, dropRef gr s3)) := by
  have hvg : s.generation = h.generation := by simpa [validate] using hval
  rw [tryWrite_ok h s v lw hvg hflag hdata] at hw
  have hg1 : g = { value := v } := by
    have := congrArg Prod.fst hw
    simpa using this.symm
  have hs1 : s1 =
      { s with
        flag := BorrowFlag.writing,
        borrow := { s.borrow with borrowed_mut_at := some lw } } := by
    have := congrArg Prod.snd hw
    simpa using this.symm
  subst hg1
  subst hs1
  have hok := tryWrite_ok h
    { data := s.data, flag := BorrowFlag.idle, generation := s.generation,
      borrow := { borrowed_at := s.borrow.borrowed_at, borrowed_mut_at := none } }
    v lw2 hvg rfl hdata
  refine ⟨?_, ?_, ?_, ?_, ?_⟩
  · simp [tryMapMut, hf]
  · show (tryWrite h lw2
        { data := s.data, flag := BorrowFlag.idle, generation := s.generation,
          borrow := { borrowed_at := s.borrow.borrowed_at, borrowed_mut_at := none } }).1 =
      Except.ok { value := v }
    rw [hok]
  · simp [tryMapMut, hfN, dropRefMut]
  · simp only [tryMapMut, hfN]
    show (tryWrite h lw2
        { data := s.data, flag := BorrowFlag.idle, generation := s.generation,
          borrow := { borrowed_at := s.borrow.borrowed_at, borrowed_mut_at := none } }).1 =
      Except.ok { value := v }
    rw [hok]
  · intro fR gr s3 hfR
    simp [tryMap, hfR]

def sC7 : MemoryLocation :=
  { data := some { ty := 3, val := 10 }
    flag := BorrowFlag.idle
    generation := 0
    borrow := { borrowed_at := [], borrowed_mut_at := none } }

def sC7w : MemoryLocation :=
  { data := some { ty := 3, val := 10 }
    flag := BorrowFlag.writing
    generation := 0
    borrow := { borrowed_at := [], borrowed_mut_at := some 4 } }

/-- Witness for C7 at a concrete slot, guard and projections. -/
theorem C7_projection_release_witness :
    validate hB sC7 = true ∧ tryWrite hB 4 sC7 = (Except.ok { value := 10 }, sC7w) ∧
    (tryMapMut { value := 10 } (fun x => some (x + 1)) sC7w =
        (some { value := 11 },
          { sC7w with borrow := { sC7w.borrow with borrowed_mut_at := none } }) ∧
      (tryWrite hB 6
          (dropRefMut { sC7w with borrow := { sC7w.borrow with borrowed_mut_at := none } })).1 =
        Except.ok { value := 10 } ∧
      tryMapMut { value := 10 } (fun _ => none) sC7w = (none, dropRefMut sC7w) ∧
      (tryWrite hB 6 (tryMapMut { value := 10 } (fun _ => none) sC7w).2).1 =
        Except.ok { value := 10 } ∧
      (∀ (fR : Nat → Option Nat) (gr : GenerationalRef) (s3 : MemoryLocation),
        fR gr.value = none → tryMap gr fR s3 = (none, dropRef gr s3))) :=
  ⟨by decide, by decide,
    C7_projection_release hB sC7 sC7w { value := 10 } 10 11 4 6
      (fun x => some (x + 1)) (fun _ => none)
      (by decide) (by decide) (by decide) (by decide) rfl rfl⟩

/-- Claim C10: in the borrow-conflict branch of try_read (the cell is
write-locked), the error constructor borrow_error unwraps the slot's
borrowed_mut_at; with the write marker registered, as after a plain
try_write, try_read returns AlreadyBorrowedMut carrying the writer's
location without panicking (the failed call's borrow info then drops,
running the un-negated retain that keeps only the read markers equal to
the failed caller's location); borrow_error panics exactly when no write
marker is registered, and that state is reachable with the cell still
write-locked — after UnsyncStorage::try_map_mut drops the original
write-borrow info while the projected guard is live — whereupon try_read
panics instead of returning an error. -/
theorem C10_borrow_error_unwrap (h : GenerationalBox) (s s1 : MemoryLocation)
    (g : GenerationalRefMut) (v w : Nat) (lw lr : Location) (f : Nat → Option Nat)
    (hval : validate h s = true) (hflag : s.flag = BorrowFlag.idle)
    (hdata : s.data = some { ty := h.ty, val := v })
    (hw : tryWrite h lw s = (Except.ok g, s1)) (hf : f v = some w) :
    s1.flag = BorrowFlag.writing ∧
    s1.borrow.borrowed_mut_at = some lw ∧
    tryRead h lr s1 =
      some (Except.error (BorrowError.AlreadyBorrowedMut lw),
        { s1 with borrow := { s1.borrow with
            borrowed_at := s1.borrow.borrowed_at.filter (fun l => l == lr) } }) ∧
    (tryMapMut g f s1).2.flag = BorrowFlag.writing ∧
    (tryMapMut g f s1).2.borrow.borrowed_mut_at = none ∧
    tryRead h lr (tryMapMut g f s1).2 = none ∧
    (∀ b : MemoryLocationBorrowInfo, b.borrow_error = none ↔ b.borrowed_mut_at = none) := by
  have hvg : s.generation = h.generation := by simpa [validate] using hval
  rw [tryWrite_ok h s v lw hvg hflag hdata] at hw
  have hg1 : g = { value := v } := by
    have := congrArg Prod.fst hw
    simpa using this.symm
  have hs1 : s1 =
      { s with
        flag := BorrowFlag.writing,
        borrow := { s.borrow with borrowed_mut_at := some lw } } := by
    have := congrArg Prod.snd hw
    simpa using this.symm
  subst hg1
  subst hs1
  refine ⟨rfl, rfl, ?_, ?_, ?_, ?_, ?_⟩
  · simp [tryRead, hvg, MemoryLocationBorrowInfo.borrow_error]
  · simp [tryMapMut, hf]
  · simp [tryMapMut, hf]
  · simp [tryMapMut, hf, tryRead, hvg, MemoryLocationBorrowInfo.borrow_error]
  · intro b
    cases hb : b.borrowed_mut_at <;>
      simp [MemoryLocationBorrowInfo.borrow_error, hb]

/-- Witness for C10 at a concrete slot, guard and projection. -/
theorem C10_borrow_error_unwrap_witness :
    validate hB sC7 = true ∧ tryWrite hB 4 sC7 = (Except.ok { value := 10 }, sC7w) ∧
    (sC7w.flag = BorrowFlag.writing ∧
      sC7w.borrow.borrowed_mut_at = some 4 ∧
      tryRead hB 5 sC7w =
        some (Except.error (BorrowError.AlreadyBorrowedMut 4),
          { sC7w with borrow := { sC7w.borrow with
              borrowed_at := sC7w.borrow.borrowed_at.filter (fun l => l == 5) } }) ∧
      (tryMapMut { value := 10 } (fun x => some (x + 2)) sC7w).2.flag = BorrowFlag.writing ∧
      (tryMapMut { value := 10 } (fun x => some (x + 2)) sC7w).2.borrow.borrowed_mut_at = none ∧
      tryRead hB 5 (tryMapMut { value := 10 } (fun x => some (x + 2)) sC7w).2 = none ∧
      (∀ b : MemoryLocationBorrowInfo, b.borrow_error = none ↔ b.borrowed_mut_at = none)) :=
  ⟨by decide, by decide,
    C10_borrow_error_unwrap hB sC7 sC7w { value := 10 } 10 12 4 5 (fun x => some (x + 2))
      (by decide) (by decide) (by decide) (by decide) rfl⟩

/-! ## Claim C8 -/

/-- Claim C8 (amended): for a Handle obtained from claim(), with the
slot's cell not write-locked, validate() is true, and if the slot holds
no value at that moment — in particular when nothing initialized it
since the claim and no freelist aliasing from a double dispose
re-populated it — try_read fails with a Dropped error carrying the
claim site, and likewise when the slot holds a value of a different
type tag: Dropped signals an absent or type-mismatched value as well as
a generation mismatch, not only disposal. -/
theorem C8_claimed_uninitialized_read (ty ca c : Nat) (rt rt1 : Runtime)
    (h : GenerationalBox)
    (hclaim : claim ty ca rt = (h, rt1))
    (hflag : (slotAt rt1 h.slot).flag ≠ BorrowFlag.writing) :
    validateRT h rt1 = true ∧
    ((slotAt rt1 h.slot).data = none →
      (tryRead h c (slotAt rt1 h.slot)).map Prod.fst =
        some (Except.error (BorrowError.Dropped ca))) ∧
    (∀ b : BoxedAny, (slotAt rt1 h.slot).data = some b → b.ty ≠ ty →
      (tryRead h c (slotAt rt1 h.slot)).map Prod.fst =
        some (Except.error (BorrowError.Dropped ca))) := by
  have hgen : h.generation = (slotAt rt1 h.slot).generation ∧ h.created_at = ca ∧ h.ty = ty := by
    unfold claim at hclaim
    rcases hfl : rt.freelist with _ | ⟨i, rest⟩ <;> rw [hfl] at hclaim
    · cases hclaim
      refine ⟨?_, rfl, rfl⟩
      show 0 = (slotAt { slots := rt.slots ++ [freshLocation], freelist := [] } rt.slots.length).generation
      rw [show slotAt { slots := rt.slots ++ [freshLocation], freelist := [] } rt.slots.length =
        freshLocation from getD_concat rt.slots freshLocation freshLocation]
      rfl
    · cases hclaim
      exact ⟨rfl, rfl, rfl⟩
  obtain ⟨hg1, hca, hty⟩ := hgen
  refine ⟨?_, ?_, ?_⟩
  · simp [validateRT, validate, hg1]
  · intro hdat
    simp [tryRead, hg1.symm, hflag, hdat, hca]
  · intro b hdat hbty
    have : b.ty ≠ h.ty := by rw [hty]; exact hbty
    simp [tryRead, hg1.symm, hflag, hdat, this, hca]

def rtC8 : Runtime := { slots := [freshLocation], freelist := [] }

/-- Witness for C8: a claim on the empty runtime leaks a fresh
uninitialized slot; validate is true yet try_read is Dropped. -/
theorem C8_claimed_uninitialized_read_witness :
    claim 3 9 rtEmpty = (hB, rtC8) ∧
    (validateRT hB rtC8 = true ∧
      ((slotAt rtC8 hB.slot).data = none →
        (tryRead hB 5 (slotAt rtC8 hB.slot)).map Prod.fst =
          some (Except.error (BorrowError.Dropped 9))) ∧
      (∀ b : BoxedAny, (slotAt rtC8 hB.slot).data = some b → b.ty ≠ 3 →
        (tryRead hB 5 (slotAt rtC8 hB.slot)).map Prod.fst =
          some (Except.error (BorrowError.Dropped 9)))) :=
  ⟨by decide, C8_claimed_uninitialized_read 3 9 5 rtEmpty rtC8 hB (by decide) (by decide)⟩

def rtC8x2 : Runtime :=
  { slots := [{ data := none
                flag := BorrowFlag.idle
                generation := 1
                borrow := { borrowed_at := [], borrowed_mut_at := none } }]
    freelist := [0] }

def rtC8x3 : Runtime :=
  { slots := [{ data := none
                flag := BorrowFlag.idle
                generation := 2
                borrow := { borrowed_at := [], borrowed_mut_at := none } }]
    freelist := [0, 0] }

def hC8b : GenerationalBox := { slot := 0, generation := 2, created_at := 9, ty := 3 }

def rtC8x4 : Runtime :=
  { slots := [{ data := none
                flag := BorrowFlag.idle
                generation := 2
                borrow := { borrowed_at := [], borrowed_mut_at := none } }]
    freelist := [0] }

def rtC8x5 : Runtime :=
  { slots := [{ data := some { ty := 3, val := 10 }
                flag := BorrowFlag.idle
                generation := 2
                borrow := { borrowed_at := [], borrowed_mut_at := none } }]
    freelist := [0] }

def rtC8x6 : Runtime :=
  { slots := [{ data := some { ty := 3, val := 10 }
                flag := BorrowFlag.idle
                generation := 2
                borrow := { borrowed_at := [], borrowed_mut_at := none } }]
    freelist := [] }

/-- Counterexample to C8 as stated: hB's slot is disposed twice (the
second dispose is stale but dispose never checks, so the slot ends up on
the freelist twice at generation 2); claim() then yields hC8b (snapshot
2) while the slot is still on the freelist once more; hC8b.set(10)
populates the slot; a second claim() yields a Handle identical to hC8b
whose slot has seen no new, set, or write since that claim — yet its
try_read succeeds with the value 10 instead of failing with Dropped. -/
theorem C8_aliasing_cex :
    claim 3 9 rtEmpty = (hB, rtC8) ∧
    dispose hB rtC8 = some rtC8x2 ∧
    dispose hB rtC8x2 = some rtC8x3 ∧
    claim 3 9 rtC8x3 = (hC8b, rtC8x4) ∧
    setRT hC8b 10 rtC8x4 = some rtC8x5 ∧
    claim 3 9 rtC8x5 = (hC8b, rtC8x6) ∧
    validateRT hC8b rtC8x6 = true ∧
    (tryRead hC8b 5 (slotAt rtC8x6 hC8b.slot)).map Prod.fst =
      some (Except.ok { value := 10, borrowed_at := 5 }) := by
  decide

/-! ## Claim C9 -/

/-- Claim C9: dispose performs no generation check — for any Handle h,
stale or not, as long as no guard holds the cell, h.dispose() succeeds:
it clears the slot's value, pushes the slot onto the freelist again and
bumps the slot's u32 generation by one (modulo 2 ^ 32; literally plus
one whenever the generation is below 2 ^ 32 - 1), thereby invalidating
every Handle carrying the slot's current generation, not only those
carrying h's. -/
theorem C9_dispose_unchecked (h : GenerationalBox) (rt : Runtime)
    (hlt : h.slot < rt.slots.length)
    (hflag : (slotAt rt h.slot).flag = BorrowFlag.idle)
    (hg : (slotAt rt h.slot).generation < genMod) :
    ∃ rt1, dispose h rt = some rt1 ∧
      slotAt rt1 h.slot = wipe (slotAt rt h.slot) ∧
      (slotAt rt1 h.slot).data = none ∧
      rt1.freelist = h.slot :: rt.freelist ∧
      (slotAt rt1 h.slot).generation = ((slotAt rt h.slot).generation + 1) % genMod ∧
      ((slotAt rt h.slot).generation < genMod - 1 →
        (slotAt rt1 h.slot).generation = (slotAt rt h.slot).generation + 1) ∧
      ∀ h2 : GenerationalBox, h2.slot = h.slot →
        h2.generation = (slotAt rt h.slot).generation → validateRT h2 rt1 = false := by
  refine ⟨{ setSlot rt h.slot (wipe (slotAt rt h.slot)) with freelist := h.slot :: rt.freelist },
    ?_, ?_, ?_, rfl, ?_, ?_, ?_⟩
  · unfold dispose
    rw [disposeSlot_of_idle _ hflag]
  · exact getD_set_self rt.slots h.slot _ _ hlt
  · rw [show slotAt { setSlot rt h.slot (wipe (slotAt rt h.slot)) with
        freelist := h.slot :: rt.freelist } h.slot = wipe (slotAt rt h.slot) from
      getD_set_self rt.slots h.slot _ _ hlt]
    rfl
  · rw [show slotAt { setSlot rt h.slot (wipe (slotAt rt h.slot)) with
        freelist := h.slot :: rt.freelist } h.slot = wipe (slotAt rt h.slot) from
      getD_set_self rt.slots h.slot _ _ hlt]
    rfl
  · intro hlt2
    rw [show slotAt { setSlot rt h.slot (wipe (slotAt rt h.slot)) with
        freelist := h.slot :: rt.freelist } h.slot = wipe (slotAt rt h.slot) from
      getD_set_self rt.slots h.slot _ _ hlt]
    show ((slotAt rt h.slot).generation + 1) % genMod = (slotAt rt h.slot).generation + 1
    rw [genMod_val] at hlt2 ⊢
    omega
  · intro h2 hs2 hg2
    have hsl : slotAt { setSlot rt h.slot (wipe (slotAt rt h.slot)) with
        freelist := h.slot :: rt.freelist } h2.slot = wipe (slotAt rt h.slot) := by
      rw [hs2]
      exact getD_set_self rt.slots h.slot _ _ hlt
    have hne : (wipe (slotAt rt h.slot)).generation ≠ h2.generation := by
      rw [hg2]
      show ((slotAt rt h.slot).generation + 1) % genMod ≠ (slotAt rt h.slot).generation
      rw [genMod_val] at hg ⊢
      omega
    simp [validateRT, validate, hsl, hne]

def rtC9 : Runtime :=
  { slots := [{ data := some { ty := 3, val := 7 }
                flag := BorrowFlag.idle
                generation := 5
                borrow := { borrowed_at := [], borrowed_mut_at := none } }]
    freelist := [] }

/-- Witness for C9 on a stale handle: hStale carries snapshot 7 while the
slot's generation is 5, yet dispose goes through. -/
theorem C9_dispose_unchecked_witness :
    (hStale.slot < rtC9.slots.length ∧
      (slotAt rtC9 hStale.slot).flag = BorrowFlag.idle ∧
      validateRT hStale rtC9 = false) ∧
    ∃ rt1, dispose hStale rtC9 = some rt1 ∧
      slotAt rt1 hStale.slot = wipe (slotAt rtC9 hStale.slot) ∧
      (slotAt rt1 hStale.slot).data = none ∧
      rt1.freelist = hStale.slot :: rtC9.freelist ∧
      (slotAt rt1 hStale.slot).generation = ((slotAt rtC9 hStale.slot).generation + 1) % genMod ∧
      ((slotAt rtC9 hStale.slot).generation < genMod - 1 →
        (slotAt rt1 hStale.slot).generation = (slotAt rtC9 hStale.slot).generation + 1) ∧
      ∀ h2 : GenerationalBox, h2.slot = hStale.slot →
        h2.generation = (slotAt rtC9 hStale.slot).generation → validateRT h2 rt1 = false :=
  ⟨⟨by decide, by decide, by decide⟩,
    C9_dispose_unchecked hStale rtC9 (by decide) (by decide) (by decide)⟩

end GenBox
